import Mathlib

/-
Shallow embedding of the Angry-Leli physics mini-game from src/game.js
(object `AngryLeliGame`).  JS numbers are modelled as real numbers; the
canvas, DOM, sounds and particle effects are outside the claims and are
omitted.  Field and function names follow the source.
-/

noncomputable section

namespace AngryLeli

/- A bird projectile, as created by `prepareNextBird` (game.js:1016). -/
structure Bird where
  x : ℝ
  y : ℝ
  vx : ℝ
  vy : ℝ
  r : ℝ
  launched : Bool
  active : Bool
  restTime : ℝ


/- A pig target, as normalised in `buildLevel` (game.js:1089). -/
structure Pig where
  x : ℝ
  y : ℝ
  r : ℝ
  alive : Bool


/- An axis-aligned rectangular obstacle, as normalised in `buildLevel`
(game.js:1090). -/
structure Obstacle where
  x : ℝ
  y : ℝ
  w : ℝ
  h : ℝ
  health : ℝ
  alive : Bool


/- Canvas dimensions; `groundY` and the sling anchor are derived from them in
`onResize` (game.js:911). -/
structure Env where
  width : ℝ
  height : ℝ

/- game.js:912 `this.groundY = canvas.height - 80`. -/
def groundY (e : Env) : ℝ := e.height - 80

/- game.js:913-914: anchor x clamps `canvas.width * 0.20` into [200, 380]. -/
def slingAnchorX (e : Env) : ℝ := max 200 (min 380 (e.width * 0.20))

/- game.js:915. -/
def slingAnchorY (e : Env) : ℝ := groundY e - 60

/- game.js:868. -/
def birdRadius : ℝ := 18

/- game.js:869. -/
def pigRadius : ℝ := 16

/- game.js:866. -/
def maxPull : ℝ := 250

/- Mutable state of `AngryLeliGame` relevant to the claims.  `pull` is the
pair (dist, angle) from game.js:865. -/
structure GameState where
  score : ℕ
  birdsRemaining : ℤ
  currentLevel : ℕ
  birds : List Bird
  pigs : List Pig
  obstacles : List Obstacle
  currentBird : Option Bird
  isDragging : Bool
  pull : ℝ × ℝ
  nextBirdTimer : ℝ
  isRunning : Bool

/- The bird placed on the sling by `prepareNextBird` (game.js:1018-1027). -/
def slingBird (e : Env) : Bird :=
  { x := slingAnchorX e, y := slingAnchorY e, vx := 0, vy := 0,
    r := birdRadius, launched := false, active := true, restTime := 0 }

/- game.js:1016-1030: guard on `birdsRemaining <= 0`, then create the sling
bird, reset the pull and decrement `birdsRemaining`. -/
def prepareNextBird (e : Env) (s : GameState) : GameState :=
  if s.birdsRemaining ≤ 0 then s
  else
    { s with currentBird := some (slingBird e),
             pull := (0, -(Real.pi / 4)),
             birdsRemaining := s.birdsRemaining - 1 }

/- game.js:968-978: the pull distance is clamped to `maxPull` and the angle
is `atan2 dy dx`, modelled by the argument of the complex number dx + dy*I. -/
def updateAim (e : Env) (s : GameState) (px py : ℝ) : GameState :=
  match s.currentBird with
  | none => s
  | some b =>
    let dx := px - slingAnchorX e
    let dy := py - slingAnchorY e
    let dist := min maxPull (Real.sqrt (dx * dx + dy * dy))
    let angle := Complex.arg (Complex.mk dx dy)
    { s with pull := (dist, angle),
             currentBird := some { b with
               x := slingAnchorX e + Real.cos angle * dist,
               y := slingAnchorY e + Real.sin angle * dist } }

/- game.js:1009-1014. -/
def resetCurrentBirdPosition (e : Env) (s : GameState) : GameState :=
  match s.currentBird with
  | none => s
  | some b =>
    { s with currentBird := some { b with x := slingAnchorX e, y := slingAnchorY e },
             pull := (0, -(Real.pi / 4)) }

/- game.js:980-1007.  Below the minimum pull of 10 the bird snaps back;
otherwise the velocity is set from the stored pull as written at
game.js:994-995 (`-cos(-angle)`, `-sin(-angle)`, scale 5.0), the bird is
marked launched and active and appended to `birds`. -/
def launchCurrentBird (e : Env) (s : GameState) : GameState :=
  match s.currentBird with
  | none => s
  | some b =>
    let dist := s.pull.1
    let angle := s.pull.2
    if dist < 10 then
      { resetCurrentBirdPosition e s with isDragging := false }
    else
      let b' := { b with
        vx := -(Real.cos (-angle)) * dist * 5.0,
        vy := -(Real.sin (-angle)) * dist * 5.0,
        launched := true, active := true, restTime := 0 }
      { s with birds := s.birds ++ [b'], currentBird := none,
               isDragging := false, nextBirdTimer := 0.5 }

/- game.js:1165-1209: Euler step with gravity 700, wall bounce, ground
bounce with rest-time accounting, off-screen cleanup, and falling asleep. -/
def integrateBird (e : Env) (b : Bird) (dt : ℝ) : Bird :=
  if b.launched = false then b
  else
    let vy1 := b.vy + 700 * dt
    let x1 := b.x + b.vx * dt
    let y1 := b.y + vy1 * dt
    let xw := if x1 - b.r < 0 then b.r else x1
    let vxw := if x1 - b.r < 0 then b.vx * (-0.4) else b.vx
    let xw2 := if xw + b.r > e.width then e.width - b.r else xw
    let vxw2 := if xw + b.r > e.width then vxw * (-0.4) else vxw
    let ground := y1 + b.r > groundY e
    let y2 := if ground then groundY e - b.r else y1
    let vy2 := if ground then (if 40 < |vy1| then vy1 * (-0.35) else 0) else vy1
    let vx2 := if ground then vxw2 * 0.93 else vxw2
    let rest2 :=
      if ground then
        (if Real.sqrt (vx2 * vx2 + vy2 * vy2) < 12 then b.restTime + dt else 0)
      else b.restTime
    if y2 - b.r > e.height * 1.2 ∨ xw2 + b.r < -200 ∨ xw2 - b.r > e.width + 200 then
      { b with x := xw2, y := y2, vx := vx2, vy := vy2, restTime := rest2,
               active := false }
    else if Real.sqrt (vx2 * vx2 + vy2 * vy2) < 8 ∧ 0.8 < rest2 then
      { b with x := xw2, y := y2, vx := vx2, vy := vy2, restTime := rest2,
               active := false }
    else
      { b with x := xw2, y := y2, vx := vx2, vy := vy2, restTime := rest2 }

/- The intermediate values of `integrateBird`, named stage by stage so the
theorems below can speak about them; `integrateBird_eq` proves that
`integrateBird` computes exactly these. -/

/- game.js:1169. -/
def eulerVy (b : Bird) (dt : ℝ) : ℝ := b.vy + 700 * dt

/- game.js:1170. -/
def eulerX (b : Bird) (dt : ℝ) : ℝ := b.x + b.vx * dt

/- game.js:1171 (uses the already-updated vy). -/
def eulerY (b : Bird) (dt : ℝ) : ℝ := b.y + eulerVy b dt * dt

/- x after the two wall clamps of game.js:1174-1181. -/
def postX (e : Env) (b : Bird) (dt : ℝ) : ℝ :=
  if e.width < (if eulerX b dt - b.r < 0 then b.r else eulerX b dt) + b.r
  then e.width - b.r
  else (if eulerX b dt - b.r < 0 then b.r else eulerX b dt)

/- vx after the two wall bounces of game.js:1174-1181. -/
def wallVx (e : Env) (b : Bird) (dt : ℝ) : ℝ :=
  if e.width < (if eulerX b dt - b.r < 0 then b.r else eulerX b dt) + b.r
  then (if eulerX b dt - b.r < 0 then b.vx * (-0.4) else b.vx) * (-0.4)
  else (if eulerX b dt - b.r < 0 then b.vx * (-0.4) else b.vx)

/- Ground-contact test of game.js:1184. -/
def groundContact (e : Env) (b : Bird) (dt : ℝ) : Prop :=
  groundY e < eulerY b dt + b.r

instance (e : Env) (b : Bird) (dt : ℝ) : Decidable (groundContact e b dt) := by
  unfold groundContact; infer_instance

/- y after the ground clamp of game.js:1185. -/
def postY (e : Env) (b : Bird) (dt : ℝ) : ℝ :=
  if groundContact e b dt then groundY e - b.r else eulerY b dt

/- vy after the ground bounce of game.js:1186-1190. -/
def postVy (e : Env) (b : Bird) (dt : ℝ) : ℝ :=
  if groundContact e b dt then
    (if 40 < |eulerVy b dt| then eulerVy b dt * (-0.35) else 0)
  else eulerVy b dt

/- vx after the ground friction of game.js:1191. -/
def postVx (e : Env) (b : Bird) (dt : ℝ) : ℝ :=
  if groundContact e b dt then wallVx e b dt * 0.93 else wallVx e b dt

/- restTime after game.js:1192-1196. -/
def postRest (e : Env) (b : Bird) (dt : ℝ) : ℝ :=
  if groundContact e b dt then
    (if Real.sqrt (postVx e b dt * postVx e b dt + postVy e b dt * postVy e b dt) < 12
     then b.restTime + dt else 0)
  else b.restTime

/- Off-screen test of game.js:1200, on the clamped position. -/
def offscreen (e : Env) (b : Bird) (dt : ℝ) : Prop :=
  e.height * 1.2 < postY e b dt - b.r ∨ postX e b dt + b.r < -200 ∨
    e.width + 200 < postX e b dt - b.r

instance (e : Env) (b : Bird) (dt : ℝ) : Decidable (offscreen e b dt) := by
  unfold offscreen; infer_instance

/- Fall-asleep test of game.js:1206, on the post-bounce state. -/
def sleepCond (e : Env) (b : Bird) (dt : ℝ) : Prop :=
  Real.sqrt (postVx e b dt * postVx e b dt + postVy e b dt * postVy e b dt) < 8 ∧
    0.8 < postRest e b dt

instance (e : Env) (b : Bird) (dt : ℝ) : Decidable (sleepCond e b dt) := by
  unfold sleepCond; infer_instance

/- The active flag after game.js:1199-1208. -/
def postActive (e : Env) (b : Bird) (dt : ℝ) : Bool :=
  if offscreen e b dt then false
  else if sleepCond e b dt then false
  else b.active

/- game.js:1216: x of the point of the rectangle closest to the bird. -/
def nearestX (b : Bird) (ob : Obstacle) : ℝ := max ob.x (min b.x (ob.x + ob.w))

/- game.js:1217. -/
def nearestY (b : Bird) (ob : Obstacle) : ℝ := max ob.y (min b.y (ob.y + ob.h))

/- Squared distance from the bird centre to the closest point (game.js:1220). -/
def distSq (b : Bird) (ob : Obstacle) : ℝ :=
  (b.x - nearestX b ob) * (b.x - nearestX b ob) +
    (b.y - nearestY b ob) * (b.y - nearestY b ob)

/- The exact distance from the bird centre to the rectangle. -/
def closestDist (b : Bird) (ob : Obstacle) : ℝ := Real.sqrt (distSq b ob)

/- game.js:1224 `Math.sqrt(distSq) || 0.001`: the JS `||` replaces a zero
square root by 0.001. -/
def collisionDist (b : Bird) (ob : Obstacle) : ℝ :=
  if Real.sqrt (distSq b ob) = 0 then 0.001 else Real.sqrt (distSq b ob)

/- game.js:1225. -/
def collisionNx (b : Bird) (ob : Obstacle) : ℝ :=
  (b.x - nearestX b ob) / collisionDist b ob

/- game.js:1226. -/
def collisionNy (b : Bird) (ob : Obstacle) : ℝ :=
  (b.y - nearestY b ob) / collisionDist b ob

/- game.js:1234: impact velocity along the contact normal. -/
def collisionDot (b : Bird) (ob : Obstacle) : ℝ :=
  b.vx * collisionNx b ob + b.vy * collisionNy b ob

/- The body of the obstacle loop of `handleObstacleCollisions`
(game.js:1213-1248) for a single obstacle: dead obstacles are skipped, a
collision pushes the bird out, reflects and damps its velocity, damages the
obstacle, and wakes the bird. -/
def collideOne (b : Bird) (ob : Obstacle) : Bird × Obstacle :=
  if ob.alive = false then (b, ob)
  else if distSq b ob < b.r * b.r then
    let overlap := b.r - collisionDist b ob
    let dot := collisionDot b ob
    let h1 := ob.health - max 1 (|dot| * 0.02)
    ({ b with x := b.x + collisionNx b ob * overlap,
              y := b.y + collisionNy b ob * overlap,
              vx := (b.vx - 1.6 * dot * collisionNx b ob) * 0.82,
              vy := (b.vy - 1.6 * dot * collisionNy b ob) * 0.82,
              active := true, restTime := 0 },
     { ob with health := h1, alive := if h1 ≤ 0 then false else ob.alive })
  else (b, ob)

/- The obstacle loop of game.js:1213, threading the bird through the list. -/
def collideList : Bird → List Obstacle → Bird × List Obstacle
  | b, [] => (b, [])
  | b, ob :: rest =>
    let p := collideOne b ob
    let q := collideList p.1 rest
    (q.1, p.2 :: q.2)

/- game.js:1211-1249: unlaunched birds are skipped entirely. -/
def handleObstacleCollisions (b : Bird) (obs : List Obstacle) : Bird × List Obstacle :=
  if b.launched = false then (b, obs) else collideList b obs

/- game.js:1261-1263. -/
def cleanupObstacles (obs : List Obstacle) : List Obstacle :=
  obs.filter fun o => o.alive && decide (0 < o.health)

/- The hit test of `checkHits` (game.js:1269-1273): the bird must be
launched and the centre distance below the sum of the radii. -/
def pigHit (p : Pig) (b : Bird) : Prop :=
  b.launched = true ∧
    Real.sqrt ((p.x - b.x) * (p.x - b.x) + (p.y - b.y) * (p.y - b.y)) < p.r + b.r

instance (p : Pig) (b : Bird) : Decidable (pigHit p b) := by
  unfold pigHit; infer_instance

/- The inner bird loop of `checkHits` with its `break` (game.js:1268-1284):
scan for the first hitting bird; on a hit that bird's velocity is damped by
0.7 and the scan stops. -/
def pigHitScan (p : Pig) : List Bird → Option (List Bird)
  | [] => none
  | b :: rest =>
    if pigHit p b then some ({ b with vx := b.vx * 0.7, vy := b.vy * 0.7 } :: rest)
    else
      match pigHitScan p rest with
      | none => none
      | some rest' => some (b :: rest')

/- One iteration of the pig loop of `checkHits` (game.js:1266-1286): dead
pigs are skipped; a hit kills the pig and scores 100. -/
def checkHitsPig (p : Pig) (bs : List Bird) : Pig × List Bird × ℕ :=
  if p.alive = false then (p, bs, 0)
  else
    match pigHitScan p bs with
    | none => (p, bs, 0)
    | some bs' => ({ p with alive := false }, bs', 100)

/- game.js:1265-1287, threading birds and score through the pig list. -/
def checkHits : List Pig → List Bird → ℕ → List Pig × List Bird × ℕ
  | [], bs, s => ([], bs, s)
  | p :: ps, bs, s =>
    let t := checkHitsPig p bs
    let u := checkHits ps t.2.1 (s + t.2.2)
    (t.1 :: u.1, u.2.1, u.2.2)

/- Number of dead pigs in a list. -/
def countDead (ps : List Pig) : ℕ := (ps.filter fun p => !p.alive).length

/- game.js:1289-1295. -/
def handleNextBird (e : Env) (s : GameState) (dt : ℝ) : GameState :=
  if s.currentBird.isSome ∨ s.birdsRemaining ≤ 0 then s
  else
    let s1 := { s with nextBirdTimer := s.nextBirdTimer - dt }
    if s1.nextBirdTimer ≤ 0 then prepareNextBird e s1 else s1

/- The three level layouts of `buildLevel` (game.js:1040-1084), already
normalised with `alive := true` as at game.js:1089-1094 (every layout
obstacle carries an explicit nonzero health, so the `|| 3` default never
applies). -/
def buildLayout (e : Env) : ℕ → List Pig × List Obstacle
  | 0 =>
    let g := groundY e
    let r := pigRadius
    let baseX := max 200 (min (e.width - 200) (max (e.width * 0.60) (slingAnchorX e + 340)))
    ([⟨baseX, g - r, r, true⟩,
      ⟨baseX + 60, g - r, r, true⟩,
      ⟨baseX + 30, g - r * 3, r, true⟩,
      ⟨baseX + 100, g - r * 2, r, true⟩],
     [])
  | 1 =>
    let g := groundY e
    let r := pigRadius
    let baseX := max 200 (min (e.width - 200) (max (e.width * 0.60) (slingAnchorX e + 340)))
    let platformH : ℝ := 18
    let tallH : ℝ := 90
    ([⟨baseX - 10, g - r, r, true⟩,
      ⟨baseX + 70, g - r, r, true⟩,
      ⟨baseX + 150, g - r, r, true⟩,
      ⟨baseX + 40, g - tallH - r, r, true⟩,
      ⟨baseX + 120, g - tallH - platformH - r * 1.3, r, true⟩],
     [⟨baseX - 60, g - platformH, 220, platformH, 5, true⟩,
      ⟨baseX - 60, g - platformH - tallH, 24, tallH, 4, true⟩,
      ⟨baseX + 136, g - platformH - tallH, 24, tallH, 4, true⟩,
      ⟨baseX - 40, g - platformH - tallH - platformH, 240, platformH, 5, true⟩])
  | _ =>
    let g := groundY e
    let r := pigRadius
    let baseX := max 200 (min (e.width - 200) (max (e.width * 0.60) (slingAnchorX e + 340)))
    let platformH : ℝ := 18
    ([⟨baseX + 10, g - r, r, true⟩,
      ⟨baseX + 80, g - r, r, true⟩,
      ⟨baseX + 150, g - r, r, true⟩,
      ⟨baseX + 70, g - 70 - r, r, true⟩,
      ⟨baseX + 120, g - 70 - platformH - r * 1.5, r, true⟩],
     [⟨baseX - 30, g - platformH, 240, platformH, 5, true⟩,
      ⟨baseX, g - platformH - 70, 20, 70, 4, true⟩,
      ⟨baseX + 190, g - platformH - 70, 20, 70, 4, true⟩,
      ⟨baseX - 10, g - platformH - 70, 240, 16, 4, true⟩,
      ⟨baseX + 60, g - platformH - 70 - 70, 120, 16, 3, true⟩])

/- game.js:1086 `layouts[levelIndex % layouts.length]` with 3 layouts. -/
def buildLevel (e : Env) (levelIndex : ℕ) : List Pig × List Obstacle :=
  buildLayout e (levelIndex % 3)

/- game.js:1099-1110. -/
def loadLevel (e : Env) (s : GameState) (levelIndex : ℕ) : GameState :=
  let layout := buildLevel e levelIndex
  prepareNextBird e
    { s with currentLevel := levelIndex,
             pigs := layout.1,
             obstacles := layout.2,
             birds := [],
             currentBird := none,
             isDragging := false,
             nextBirdTimer := 0 }

/- game.js:1112-1116. -/
def advanceLevel (e : Env) (s : GameState) : GameState :=
  loadLevel e { s with birdsRemaining := max (s.birdsRemaining + 2) 2 }
    (s.currentLevel + 1)

/- game.js:1297-1309; `gameOver(false)` (game.js:1311) stops the game. -/
def checkGameOver (e : Env) (s : GameState) : GameState :=
  if s.pigs.any (fun p => p.alive) = false then advanceLevel e s
  else if s.birds.any (fun b => b.active) = false ∧
          (decide (0 < s.birdsRemaining) || s.currentBird.isSome) = false then
    { s with isRunning := false }
  else s

/- game.js:1138-1140: the measured frame delta, with `none` standing for a
NaN value of the floating-point subtraction; a NaN or too-large delta is
replaced by 0.016 before `update` runs. -/
def sanitizeDt : Option ℝ → ℝ
  | none => 0.016
  | some v => if 0.05 < v then 0.016 else v

/- Concrete inputs used to instantiate the theorems below. -/

/- An 800x600 canvas. -/
def e0 : Env := ⟨800, 600⟩

/- A state mid-drag: the sling bird is held with pull distance 100 at angle
pi/2, i.e. the pointer is 100 px straight below the anchor. -/
def s0 : GameState :=
  { score := 0, birdsRemaining := 2, currentLevel := 0, birds := [], pigs := [],
    obstacles := [], currentBird := some (slingBird e0), isDragging := true,
    pull := (100, Real.pi / 2), nextBirdTimer := 0, isRunning := true }

/- A cleared wave: the only pig is dead and one reserve bird is left. -/
def sC5 : GameState :=
  { score := 100, birdsRemaining := 1, currentLevel := 0, birds := [],
    pigs := [⟨500, 400, 16, false⟩], obstacles := [], currentBird := none,
    isDragging := false, pull := (0, 0), nextBirdTimer := 0, isRunning := true }

/- Out of ammunition: a pig is alive, no bird flies, none on the sling. -/
def sC5b : GameState :=
  { score := 0, birdsRemaining := 0, currentLevel := 1, birds := [],
    pigs := [⟨500, 400, 16, true⟩], obstacles := [], currentBird := none,
    isDragging := false, pull := (0, 0), nextBirdTimer := 0, isRunning := true }

/- Between shots: no sling bird, three in reserve, timer still running. -/
def sBase : GameState :=
  { score := 0, birdsRemaining := 3, currentLevel := 0, birds := [], pigs := [],
    obstacles := [], currentBird := none, isDragging := false, pull := (0, 0),
    nextBirdTimer := 0.2, isRunning := true }

/- A 10x10 obstacle at the origin. -/
def obA : Obstacle := ⟨0, 0, 10, 10, 5, true⟩

/- A second obstacle, alive with positive health. -/
def obB : Obstacle := ⟨30, 0, 10, 10, 4, true⟩

/- A launched bird whose centre sits at the middle of `obA`. -/
def bIn : Bird := ⟨5, 5, 0, 0, 3, true, true, 0.5⟩

/- A launched bird overlapping `obA` from the right: the closest point is
(10, 5), at distance 4 from the centre, below the radius 5. -/
def bOut : Bird := ⟨14, 5, -10, 0, 5, true, true, 0.3⟩

/- A launched bird in free flight far from walls and ground. -/
def bFly : Bird := ⟨100, 100, 10, 0, 18, true, true, 0⟩

/- A launched bird about to hit the left wall. -/
def bWall : Bird := ⟨10, 300, -2000, 0, 18, true, true, 0⟩

/- A launched bird about to hit the right wall of an 800-wide canvas. -/
def bWallR : Bird := ⟨790, 300, 2000, 0, 18, true, true, 0⟩

/- A launched bird resting on the ground, almost asleep. -/
def bRest : Bird := ⟨100, 502, 0, 0, 18, true, true, 0.85⟩

/- A pig at the origin and a launched bird at distance 5 from it. -/
def pigW : Pig := ⟨0, 0, 3, true⟩

/- Bird at (4, 3): centre distance to `pigW` is 5 < 3 + 3. -/
def bHit : Bird := ⟨4, 3, 10, 10, 3, true, true, 0⟩

/-- C8: every physics update of the Angry-Leli loop uses a timestep of at
most 0.05 seconds and the timestep is never NaN: a NaN (modelled as `none`)
or too-large measured frame delta is replaced by 0.016 before `update` is
called, and any other measured value is kept. -/
theorem c8_dt_clamped :
    (∀ d : Option ℝ, sanitizeDt d ≤ 0.05) ∧
    sanitizeDt none = 0.016 ∧
    (∀ v : ℝ, 0.05 < v → sanitizeDt (some v) = 0.016) ∧
    (∀ v : ℝ, v ≤ 0.05 → sanitizeDt (some v) = v) := by
  refine ⟨?_, rfl, ?_, ?_⟩
  · intro d
    cases d with
    | none => norm_num [sanitizeDt]
    | some v =>
      simp only [sanitizeDt]
      split_ifs with h
      · norm_num
      · exact le_of_not_lt h
  · intro v hv
    simp [sanitizeDt, if_pos hv]
  · intro v hv
    simp [sanitizeDt, not_lt.mpr hv]

/-- Witness for C8 at the concrete deltas 0.1 and 0.04. -/
theorem c8_dt_clamped_witness :
    (0.05 : ℝ) < 0.1 ∧ sanitizeDt (some (0.1 : ℝ)) = 0.016 ∧
      (0.04 : ℝ) ≤ 0.05 ∧ sanitizeDt (some (0.04 : ℝ)) = 0.04 :=
  ⟨by norm_num, c8_dt_clamped.2.2.1 0.1 (by norm_num), by norm_num,
    c8_dt_clamped.2.2.2 0.04 (by norm_num)⟩

/-- C10: birdsRemaining never goes negative and the sling holds at most one
bird (`currentBird` is a single option): `prepareNextBird` creates a sling
bird only when birdsRemaining is positive, decrementing it by exactly 1 and
leaving the state untouched otherwise, and `handleNextBird` invokes
`prepareNextBird` only when there is no current sling bird, birdsRemaining
is positive, and the next-bird timer has expired (0.5 s after a launch). -/
theorem c10_bird_supply (e : Env) :
    (∀ s : GameState, s.birdsRemaining ≤ 0 → prepareNextBird e s = s) ∧
    (∀ s : GameState, 0 < s.birdsRemaining →
      (prepareNextBird e s).currentBird = some (slingBird e) ∧
      (prepareNextBird e s).birdsRemaining = s.birdsRemaining - 1) ∧
    (∀ s : GameState, 0 ≤ s.birdsRemaining →
      0 ≤ (prepareNextBird e s).birdsRemaining) ∧
    (∀ (s : GameState) (dt : ℝ), s.currentBird ≠ none ∨ s.birdsRemaining ≤ 0 →
      handleNextBird e s dt = s) ∧
    (∀ (s : GameState) (dt : ℝ), s.currentBird = none → 0 < s.birdsRemaining →
      s.nextBirdTimer - dt ≤ 0 →
      handleNextBird e s dt =
        prepareNextBird e { s with nextBirdTimer := s.nextBirdTimer - dt }) ∧
    (∀ (s : GameState) (dt : ℝ), s.currentBird = none → 0 < s.birdsRemaining →
      0 < s.nextBirdTimer - dt →
      handleNextBird e s dt = { s with nextBirdTimer := s.nextBirdTimer - dt }) ∧
    (∀ (s : GameState) (dt : ℝ), 0 ≤ s.birdsRemaining →
      0 ≤ (handleNextBird e s dt).birdsRemaining) := by
  have hprep0 : ∀ s : GameState, s.birdsRemaining ≤ 0 → prepareNextBird e s = s := by
    intro s hs
    simp [prepareNextBird, if_pos hs]
  have hprep1 : ∀ s : GameState, 0 < s.birdsRemaining →
      (prepareNextBird e s).currentBird = some (slingBird e) ∧
      (prepareNextBird e s).birdsRemaining = s.birdsRemaining - 1 := by
    intro s hs
    rw [prepareNextBird, if_neg (not_le.mpr hs)]
    exact ⟨rfl, rfl⟩
  have hprepge : ∀ s : GameState, 0 ≤ s.birdsRemaining →
      0 ≤ (prepareNextBird e s).birdsRemaining := by
    intro s hs
    rw [prepareNextBird]
    split_ifs with h
    · exact hs
    · have : 0 < s.birdsRemaining := lt_of_not_le h
      show (0 : ℤ) ≤ s.birdsRemaining - 1
      omega
  refine ⟨hprep0, hprep1, hprepge, ?_, ?_, ?_, ?_⟩
  · intro s dt h
    rw [handleNextBird, if_pos ?_]
    rcases h with h | h
    · exact Or.inl (Option.ne_none_iff_isSome.mp h)
    · exact Or.inr h
  · intro s dt hcb hbr ht
    have hng : ¬ (s.currentBird.isSome = true ∨ s.birdsRemaining ≤ 0) := by
      push_neg
      exact ⟨by simp [hcb], hbr⟩
    simp only [handleNextBird]
    rw [if_neg hng, if_pos ht]
  · intro s dt hcb hbr ht
    have hng : ¬ (s.currentBird.isSome = true ∨ s.birdsRemaining ≤ 0) := by
      push_neg
      exact ⟨by simp [hcb], hbr⟩
    simp only [handleNextBird]
    rw [if_neg hng, if_neg (not_le.mpr ht)]
  · intro s dt hs
    simp only [handleNextBird]
    split_ifs with h h2
    · exact hs
    · exact hprepge _ hs
    · exact hs

/-- Witness for C10: with three birds in reserve, no sling bird and an
expired timer, `handleNextBird` puts one bird on the sling and decrements
the reserve to 2. -/
theorem c10_bird_supply_witness :
    sBase.currentBird = none ∧ (0 : ℤ) < sBase.birdsRemaining ∧
      sBase.nextBirdTimer - 0.3 ≤ 0 ∧
      handleNextBird e0 sBase 0.3 =
        prepareNextBird e0 { sBase with nextBirdTimer := sBase.nextBirdTimer - 0.3 } ∧
      (prepareNextBird e0 sBase).birdsRemaining = sBase.birdsRemaining - 1 :=
  ⟨rfl, by norm_num [sBase], by norm_num [sBase],
    (c10_bird_supply e0).2.2.2.2.1 sBase 0.3 rfl (by norm_num [sBase])
      (by norm_num [sBase]),
    ((c10_bird_supply e0).2.1 sBase (by norm_num [sBase])).2⟩

/-- C1: evaluation of `launchCurrentBird` at the failing input — a drag of
pull distance 100 at angle pi/2 (pointer 100 px straight below the anchor).
The code marks the bird launched and active and moves it into `birds`, but
sets vy = +500 (downward, since `-Math.sin(-angle)` equals `+sin(angle)`),
whereas the pull vector reversed and scaled by 5 — the behaviour the claim
and the code's own comment describe — has y-component
`-(sin(pi/2) * 100 * 5) = -500` (upward). -/
theorem c1_launch_direction_bug :
    ∃ b : Bird, (launchCurrentBird e0 s0).birds = [b] ∧
      b.launched = true ∧ b.active = true ∧ b.vx = 0 ∧ b.vy = 500 ∧
      -(Real.sin (Real.pi / 2) * 100 * 5) = -500 ∧ ((500 : ℝ) ≠ -500) := by
  refine ⟨{ slingBird e0 with
      vx := -(Real.cos (-(Real.pi / 2))) * 100 * 5.0,
      vy := -(Real.sin (-(Real.pi / 2))) * 100 * 5.0,
      launched := true, active := true, restTime := 0 }, ?_, rfl, rfl, ?_, ?_, ?_, by norm_num⟩
  · simp only [launchCurrentBird, s0]
    rw [if_neg (by norm_num : ¬ ((100 : ℝ) < 10))]
    simp
  · show -(Real.cos (-(Real.pi / 2))) * 100 * 5.0 = 0
    rw [Real.cos_neg, Real.cos_pi_div_two]
    norm_num
  · show -(Real.sin (-(Real.pi / 2))) * 100 * 5.0 = 500
    rw [Real.sin_neg, Real.sin_pi_div_two]
    norm_num
  · rw [Real.sin_pi_div_two]
    norm_num

/-- C5 (amended): at the end of an update with no pig alive the game
advances one level: `advanceLevel` sets birdsRemaining to
max(birdsRemaining + 2, 2) and `loadLevel` then immediately puts one bird
on the sling through `prepareNextBird`, so the resulting birdsRemaining is
max(birdsRemaining + 2, 2) - 1 with a bird on the sling; currentLevel
increases by exactly 1; the layout is selected by levelIndex mod 3, so
level i and level i + 3 build the same layout; and when a pig is alive but
no bird is active, none is on the sling, and birdsRemaining is 0, the game
stops with a game-over instead of advancing. -/
theorem c5_level_progression (e : Env) :
    (∀ s : GameState, s.pigs.any (fun p => p.alive) = false →
      checkGameOver e s = advanceLevel e s) ∧
    (∀ s : GameState,
      (advanceLevel e s).birdsRemaining = max (s.birdsRemaining + 2) 2 - 1 ∧
      (advanceLevel e s).currentLevel = s.currentLevel + 1 ∧
      (advanceLevel e s).currentBird = some (slingBird e)) ∧
    (∀ i : ℕ, buildLevel e i = buildLevel e (i + 3)) ∧
    (∀ s : GameState, s.pigs.any (fun p => p.alive) = true →
      s.birds.any (fun b => b.active) = false → s.currentBird = none →
      s.birdsRemaining = 0 →
      checkGameOver e s = { s with isRunning := false }) := by
  refine ⟨?_, ?_, ?_, ?_⟩
  · intro s hp
    rw [checkGameOver, if_pos hp]
  · intro s
    have h2 : ¬ (max (s.birdsRemaining + 2) 2 ≤ 0) := by
      have := le_max_right (s.birdsRemaining + 2) (2 : ℤ)
      omega
    simp only [advanceLevel, loadLevel, prepareNextBird]
    rw [if_neg h2]
    exact ⟨rfl, rfl, rfl⟩
  · intro i
    rw [buildLevel, buildLevel, Nat.add_mod_right]
  · intro s hp hb hcb hbr
    rw [checkGameOver, if_neg (by simp [hp]), if_pos ?_]
    refine ⟨hb, ?_⟩
    rw [hcb, hbr]
    rfl

/-- C5 counterexample: with one reserve bird and every pig dead, the claim
says birdsRemaining becomes max(1 + 2, 2) = 3 at the end of the update, but
`checkGameOver` leaves it at 2, because `loadLevel` immediately spends one
of the rewarded birds on the sling. -/
theorem c5_counterexample :
    (checkGameOver e0 sC5).birdsRemaining = 2 ∧
      max (sC5.birdsRemaining + 2) 2 = 3 ∧ ((2 : ℤ) ≠ 3) := by
  refine ⟨?_, by norm_num [sC5], by norm_num⟩
  rw [checkGameOver, if_pos (by simp [sC5])]
  simp only [advanceLevel, loadLevel, prepareNextBird, sC5]
  norm_num

/-- Witness for C5: a cleared wave advances the level and an out-of-ammo
state with a live pig stops the game. -/
theorem c5_level_progression_witness :
    sC5.pigs.any (fun p => p.alive) = false ∧
      checkGameOver e0 sC5 = advanceLevel e0 sC5 ∧
      (advanceLevel e0 sC5).currentLevel = sC5.currentLevel + 1 ∧
      buildLevel e0 4 = buildLevel e0 7 ∧
      sC5b.pigs.any (fun p => p.alive) = true ∧ sC5b.birdsRemaining = 0 ∧
      checkGameOver e0 sC5b = { sC5b with isRunning := false } :=
  ⟨by simp [sC5], (c5_level_progression e0).1 sC5 (by simp [sC5]),
    ((c5_level_progression e0).2.1 sC5).2.1,
    (c5_level_progression e0).2.2.1 4,
    by simp [sC5b], by norm_num [sC5b],
    (c5_level_progression e0).2.2.2 sC5b (by simp [sC5b]) (by simp [sC5b]) rfl
      (by norm_num [sC5b])⟩

/-- C7: `integrateBird` advances a launched bird by explicit-Euler
projectile motion with gravity 700: first vy increases by 700*dt, then x
increases by vx*dt and y by the updated vy*dt (shown here on a step whose
result stays inside the walls, above the ground, and awake, so that no
bounce response alters the Euler values), and a bird that has not been
launched is left completely unchanged. -/
theorem c7_euler_integration (e : Env) (b : Bird) (dt : ℝ)
    (hl : b.launched = true) (hr : 0 ≤ b.r) (hh : 0 ≤ e.height)
    (hx0 : 0 ≤ b.x + b.vx * dt - b.r)
    (hx1 : b.x + b.vx * dt + b.r ≤ e.width)
    (hy : b.y + (b.vy + 700 * dt) * dt + b.r ≤ groundY e)
    (hsleep : ¬ (Real.sqrt (b.vx * b.vx + (b.vy + 700 * dt) * (b.vy + 700 * dt)) < 8 ∧
        0.8 < b.restTime)) :
    integrateBird e b dt =
      { b with vy := b.vy + 700 * dt, x := b.x + b.vx * dt,
               y := b.y + (b.vy + 700 * dt) * dt } ∧
    (∀ b2 : Bird, b2.launched = false → integrateBird e b2 dt = b2) := by
  constructor
  · have hL : ¬ (b.launched = false) := by simp [hl]
    have hg : groundY e = e.height - 80 := rfl
    have h1 : ¬ (b.x + b.vx * dt - b.r < 0) := not_lt.mpr hx0
    have h2 : ¬ (e.width < b.x + b.vx * dt + b.r) := not_lt.mpr hx1
    have h3 : ¬ (groundY e < b.y + (b.vy + 700 * dt) * dt + b.r) := not_lt.mpr hy
    have h4 : ¬ (e.height * 1.2 < b.y + (b.vy + 700 * dt) * dt - b.r ∨
        b.x + b.vx * dt + b.r < -200 ∨ e.width + 200 < b.x + b.vx * dt - b.r) := by
      push_neg
      refine ⟨by linarith, by linarith, by linarith⟩
    simp only [integrateBird, hL, hl, if_neg h1, if_neg h2, if_neg h3, if_neg h4,
      if_neg hsleep, Bool.true_eq_false, if_false]
  · intro b2 h
    simp [integrateBird, h]

/-- Witness for C7: a bird in free flight at (100, 100) with velocity
(10, 0) integrated for 0.01 s. -/
theorem c7_euler_integration_witness :
    bFly.launched = true ∧ (0 : ℝ) ≤ bFly.x + bFly.vx * 0.01 - bFly.r ∧
      integrateBird e0 bFly 0.01 =
        { bFly with vy := bFly.vy + 700 * 0.01, x := bFly.x + bFly.vx * 0.01,
                    y := bFly.y + (bFly.vy + 700 * 0.01) * 0.01 } :=
  ⟨rfl, by norm_num [bFly],
    (c7_euler_integration e0 bFly 0.01 rfl (by norm_num [bFly]) (by norm_num [e0])
      (by norm_num [bFly]) (by norm_num [bFly, e0])
      (by norm_num [bFly, e0, groundY])
      (by rintro ⟨-, h⟩; norm_num [bFly] at h)).1⟩

/-- `integrateBird` on a launched bird computes exactly the named stage
values. -/
theorem integrateBird_eq (e : Env) (b : Bird) (dt : ℝ) (hl : b.launched = true) :
    integrateBird e b dt =
      ⟨postX e b dt, postY e b dt, postVx e b dt, postVy e b dt, b.r, b.launched,
        postActive e b dt, postRest e b dt⟩ := by
  simp only [integrateBird, postX, postY, postVx, postVy, postActive, postRest,
    wallVx, groundContact, offscreen, sleepCond, eulerX, eulerY, eulerVy, hl,
    Bool.true_eq_false, if_false]
  split_ifs <;> rfl

/-- The wall clamps keep the clamped x between the walls. -/
theorem postX_bounds (e : Env) (b : Bird) (dt : ℝ)
    (hw : 2 * b.r ≤ e.width) :
    b.r ≤ postX e b dt ∧ postX e b dt ≤ e.width - b.r := by
  unfold postX
  split_ifs with h1 h2 h3 <;> constructor <;> linarith

/-- The ground clamp keeps the clamped y above the ground. -/
theorem postY_bound (e : Env) (b : Bird) (dt : ℝ) : postY e b dt ≤ groundY e - b.r := by
  unfold postY groundContact
  split_ifs with h
  · linarith
  · linarith

/-- After the clamps the off-screen test of game.js:1200 can never fire. -/
theorem not_offscreen (e : Env) (b : Bird) (dt : ℝ) (hr : 0 ≤ b.r)
    (hw : 2 * b.r ≤ e.width) (hh : 0 ≤ e.height) : ¬ offscreen e b dt := by
  have hx := postX_bounds e b dt hw
  have hy := postY_bound e b dt
  have hg : groundY e = e.height - 80 := rfl
  unfold offscreen
  push_neg
  refine ⟨by linarith [hy], by linarith [hx.1], by linarith [hx.2]⟩

/-- C9: immediately after `integrateBird` runs on a launched bird the centre
satisfies r ≤ x ≤ width - r and y ≤ groundY - r; a wall contact clamps x to
the touched boundary (r at the left wall, width - r at the right wall) and
multiplies vx by -0.4, and a ground contact clamps y to groundY - r and
either multiplies vy by -0.35 (when |vy| > 40) or zeroes it. -/
theorem c9_integration_bounds (e : Env) (b : Bird) (dt : ℝ)
    (hl : b.launched = true) (hw : 2 * b.r ≤ e.width) :
    (b.r ≤ (integrateBird e b dt).x ∧ (integrateBird e b dt).x ≤ e.width - b.r ∧
      (integrateBird e b dt).y ≤ groundY e - b.r) ∧
    (eulerX b dt - b.r < 0 →
      (integrateBird e b dt).x = b.r ∧ wallVx e b dt = b.vx * (-0.4)) ∧
    (¬ (eulerX b dt - b.r < 0) → e.width < eulerX b dt + b.r →
      (integrateBird e b dt).x = e.width - b.r ∧ wallVx e b dt = b.vx * (-0.4)) ∧
    (groundContact e b dt →
      (integrateBird e b dt).y = groundY e - b.r ∧
      (40 < |eulerVy b dt| → (integrateBird e b dt).vy = eulerVy b dt * (-0.35)) ∧
      (¬ 40 < |eulerVy b dt| → (integrateBird e b dt).vy = 0)) := by
  rw [integrateBird_eq e b dt hl]
  have hnw : ¬ (e.width < b.r + b.r) := by push_neg; linarith
  refine ⟨⟨(postX_bounds e b dt hw).1, (postX_bounds e b dt hw).2,
    postY_bound e b dt⟩, ?_, ?_, ?_⟩
  · intro h
    constructor
    · show postX e b dt = b.r
      simp only [postX, if_pos h]
      rw [if_neg hnw]
    · simp only [wallVx, if_pos h]
      rw [if_neg hnw]
  · intro h1 h2
    constructor
    · show postX e b dt = e.width - b.r
      simp only [postX, if_neg h1]
      rw [if_pos h2]
    · simp only [wallVx, if_neg h1]
      rw [if_pos h2]
  · intro h
    refine ⟨?_, ?_, ?_⟩
    · show postY e b dt = groundY e - b.r
      simp only [postY, if_pos h]
    · intro h40
      show postVy e b dt = eulerVy b dt * (-0.35)
      simp only [postVy, if_pos h, if_pos h40]
    · intro h40
      show postVy e b dt = 0
      simp only [postVy, if_pos h, if_neg h40]

/-- Witness for C9: a bird heading into the left wall and a bird heading
into the right wall on an 800x600 canvas.  The clamped positions respect
the bounds and the wall clamps set x = r and x = width - r respectively. -/
theorem c9_integration_bounds_witness :
    2 * bWall.r ≤ e0.width ∧ eulerX bWall 0.01 - bWall.r < 0 ∧
      (bWall.r ≤ (integrateBird e0 bWall 0.01).x ∧
        (integrateBird e0 bWall 0.01).x ≤ e0.width - bWall.r ∧
        (integrateBird e0 bWall 0.01).y ≤ groundY e0 - bWall.r) ∧
      (integrateBird e0 bWall 0.01).x = bWall.r ∧
      ¬ (eulerX bWallR 0.01 - bWallR.r < 0) ∧ e0.width < eulerX bWallR 0.01 + bWallR.r ∧
      (integrateBird e0 bWallR 0.01).x = e0.width - bWallR.r ∧
      wallVx e0 bWallR 0.01 = bWallR.vx * (-0.4) :=
  ⟨by norm_num [bWall, e0], by norm_num [eulerX, bWall],
    (c9_integration_bounds e0 bWall 0.01 rfl (by norm_num [bWall, e0])).1,
    ((c9_integration_bounds e0 bWall 0.01 rfl
      (by norm_num [bWall, e0])).2.1 (by norm_num [eulerX, bWall])).1,
    by norm_num [eulerX, bWallR], by norm_num [eulerX, bWallR, e0],
    ((c9_integration_bounds e0 bWallR 0.01 rfl
      (by norm_num [bWallR, e0])).2.2.1 (by norm_num [eulerX, bWallR])
      (by norm_num [eulerX, bWallR, e0])).1,
    ((c9_integration_bounds e0 bWallR 0.01 rfl
      (by norm_num [bWallR, e0])).2.2.1 (by norm_num [eulerX, bWallR])
      (by norm_num [eulerX, bWallR, e0])).2⟩

/-- C4: a launched, active bird is deactivated by `integrateBird` exactly
when it leaves the extended play area (centre more than 20% below the
canvas bottom or more than 200 px past an edge — conditions that are in
fact unreachable after the clamps) or its resulting speed is below 8 while
its accumulated rest time exceeds 0.8 s; rest time accumulates by dt only
in ground-contact frames with resulting speed below 12, is reset to 0 on a
ground-contact frame with speed 12 or more, and is reset to 0 by any
obstacle collision. -/
theorem c4_rest_detection (e : Env) (b : Bird) (dt : ℝ)
    (hl : b.launched = true) (hact : b.active = true)
    (hr : 0 ≤ b.r) (hw : 2 * b.r ≤ e.width) (hh : 0 ≤ e.height) :
    ((integrateBird e b dt).active = false ↔
      (e.height * 1.2 < (integrateBird e b dt).y ∨
       (integrateBird e b dt).x < -200 ∨
       e.width + 200 < (integrateBird e b dt).x ∨
       (Real.sqrt ((integrateBird e b dt).vx * (integrateBird e b dt).vx +
           (integrateBird e b dt).vy * (integrateBird e b dt).vy) < 8 ∧
        0.8 < (integrateBird e b dt).restTime))) ∧
    ((integrateBird e b dt).restTime =
      if groundContact e b dt then
        (if Real.sqrt ((integrateBird e b dt).vx * (integrateBird e b dt).vx +
             (integrateBird e b dt).vy * (integrateBird e b dt).vy) < 12
         then b.restTime + dt else 0)
      else b.restTime) ∧
    (∀ (b' : Bird) (ob : Obstacle), ob.alive = true →
      distSq b' ob < b'.r * b'.r → (collideOne b' ob).1.restTime = 0) := by
  rw [integrateBird_eq e b dt hl]
  have hx := postX_bounds e b dt hw
  have hy := postY_bound e b dt
  have hg : groundY e = e.height - 80 := rfl
  have hoff := not_offscreen e b dt hr hw hh
  refine ⟨?_, rfl, ?_⟩
  · show (postActive e b dt = false) ↔ _
    unfold postActive
    rw [if_neg hoff]
    by_cases hs : sleepCond e b dt
    · rw [if_pos hs]
      exact iff_of_true rfl (Or.inr (Or.inr (Or.inr hs)))
    · rw [if_neg hs]
      refine iff_of_false (by simp [hact]) ?_
      rintro (h | h | h | h)
      · linarith [hy]
      · linarith [hx.1]
      · linarith [hx.2]
      · exact hs h
  · intro b' ob h1 h2
    simp only [collideOne, h1, Bool.true_eq_false, if_false, if_pos h2]

/-- Witness for C4: a slow bird resting on the ground with 0.85 s of rest
time accumulated falls within the theorem's hypotheses. -/
theorem c4_rest_detection_witness :
    bRest.launched = true ∧ bRest.active = true ∧ 2 * bRest.r ≤ e0.width ∧
      ((integrateBird e0 bRest 0.01).active = false ↔
        (e0.height * 1.2 < (integrateBird e0 bRest 0.01).y ∨
         (integrateBird e0 bRest 0.01).x < -200 ∨
         e0.width + 200 < (integrateBird e0 bRest 0.01).x ∨
         (Real.sqrt ((integrateBird e0 bRest 0.01).vx * (integrateBird e0 bRest 0.01).vx +
             (integrateBird e0 bRest 0.01).vy * (integrateBird e0 bRest 0.01).vy) < 8 ∧
          0.8 < (integrateBird e0 bRest 0.01).restTime))) :=
  ⟨rfl, rfl, by norm_num [bRest, e0],
    (c4_rest_detection e0 bRest 0.01 rfl rfl (by norm_num [bRest])
      (by norm_num [bRest, e0]) (by norm_num [e0])).1⟩

/-- C2 (amended): for a launched bird and an alive obstacle whose closest
point is distinct from the bird's centre (positive distance), the collision
fires exactly when the centre's distance to the closest point of the
rectangle is strictly below r; the code's fallback distance then coincides
with the true distance, the contact normal is a unit vector, a non-colliding
pair is left unchanged, and on collision the position is pushed along the
normal by the overlap r - distance and the velocity v becomes
(v - 1.6 (v.n) n) * 0.82.  (When the centre lies inside the rectangle the
code instead uses fallback distance 0.001 with a zero normal and does not
push the bird out — see the counterexample.) -/
theorem c2_collision_response (b : Bird) (ob : Obstacle)
    (halive : ob.alive = true) (hr : 0 < b.r) (hpos : 0 < distSq b ob) :
    (closestDist b ob < b.r ↔ distSq b ob < b.r * b.r) ∧
    collisionDist b ob = closestDist b ob ∧
    collisionNx b ob * collisionNx b ob + collisionNy b ob * collisionNy b ob = 1 ∧
    (¬ closestDist b ob < b.r → collideOne b ob = (b, ob)) ∧
    (closestDist b ob < b.r →
      (collideOne b ob).1.x = b.x + collisionNx b ob * (b.r - closestDist b ob) ∧
      (collideOne b ob).1.y = b.y + collisionNy b ob * (b.r - closestDist b ob) ∧
      (collideOne b ob).1.vx = (b.vx - 1.6 * collisionDot b ob * collisionNx b ob) * 0.82 ∧
      (collideOne b ob).1.vy = (b.vy - 1.6 * collisionDot b ob * collisionNy b ob) * 0.82) := by
  have hsq : 0 ≤ distSq b ob := le_of_lt hpos
  have hs0 : Real.sqrt (distSq b ob) ≠ 0 := ne_of_gt (Real.sqrt_pos.mpr hpos)
  have hiff : closestDist b ob < b.r ↔ distSq b ob < b.r * b.r := by
    rw [closestDist, Real.sqrt_lt' hr, pow_two]
  have hcd : collisionDist b ob = closestDist b ob := by
    rw [collisionDist, closestDist, if_neg hs0]
  have hAlive : ¬ (ob.alive = false) := by simp [halive]
  refine ⟨hiff, hcd, ?_, ?_, ?_⟩
  · have hmul : Real.sqrt (distSq b ob) * Real.sqrt (distSq b ob) = distSq b ob :=
      Real.mul_self_sqrt hsq
    have hd : (b.x - nearestX b ob) * (b.x - nearestX b ob) +
        (b.y - nearestY b ob) * (b.y - nearestY b ob) = distSq b ob := rfl
    unfold collisionNx collisionNy
    rw [hcd, closestDist, div_mul_div_comm, div_mul_div_comm, hmul, div_add_div_same,
      hd, div_self (ne_of_gt hpos)]
  · intro hnl
    have hnc : ¬ (distSq b ob < b.r * b.r) := fun hc => hnl (hiff.mpr hc)
    simp only [collideOne, halive, Bool.true_eq_false, if_false, if_neg hnc]
  · intro hl
    have hc : distSq b ob < b.r * b.r := hiff.mp hl
    refine ⟨?_, ?_, ?_, ?_⟩ <;>
      simp only [collideOne, halive, Bool.true_eq_false, if_false, if_pos hc, hcd]

/-- C2 counterexample: a launched bird whose centre lies at the middle of an
alive obstacle.  The distance to the closest point is 0 < r, so the claim
requires the bird to be pushed out of the rectangle by the overlap r, but
the code's fallback (`Math.sqrt(distSq) || 0.001`) yields a zero normal and
leaves the centre unchanged, strictly inside the rectangle. -/
theorem c2_counterexample :
    distSq bIn obA = 0 ∧ closestDist bIn obA < bIn.r ∧
      (collideOne bIn obA).1.x = bIn.x ∧ (collideOne bIn obA).1.y = bIn.y ∧
      obA.x < (collideOne bIn obA).1.x ∧ (collideOne bIn obA).1.x < obA.x + obA.w ∧
      obA.y < (collideOne bIn obA).1.y ∧ (collideOne bIn obA).1.y < obA.y + obA.h := by
  have hnx : nearestX bIn obA = 5 := by
    rw [nearestX]; norm_num [bIn, obA, min_def, max_def]
  have hny : nearestY bIn obA = 5 := by
    rw [nearestY]; norm_num [bIn, obA, min_def, max_def]
  have hds : distSq bIn obA = 0 := by
    rw [distSq, hnx, hny]; norm_num [bIn]
  have hcl : closestDist bIn obA < bIn.r := by
    rw [closestDist, hds, Real.sqrt_zero]; norm_num [bIn]
  have hcoll : distSq bIn obA < bIn.r * bIn.r := by rw [hds]; norm_num [bIn]
  have hnx0 : collisionNx bIn obA = 0 := by
    rw [collisionNx, hnx]; norm_num [bIn]
  have hny0 : collisionNy bIn obA = 0 := by
    rw [collisionNy, hny]; norm_num [bIn]
  have hal : ¬ (obA.alive = false) := by norm_num [obA]
  have hx : (collideOne bIn obA).1.x = bIn.x := by
    rw [collideOne, if_neg hal, if_pos hcoll]
    show bIn.x + collisionNx bIn obA * (bIn.r - collisionDist bIn obA) = bIn.x
    rw [hnx0, zero_mul, add_zero]
  have hy : (collideOne bIn obA).1.y = bIn.y := by
    rw [collideOne, if_neg hal, if_pos hcoll]
    show bIn.y + collisionNy bIn obA * (bIn.r - collisionDist bIn obA) = bIn.y
    rw [hny0, zero_mul, add_zero]
  refine ⟨hds, hcl, hx, hy, ?_, ?_, ?_, ?_⟩
  · rw [hx]; norm_num [bIn, obA]
  · rw [hx]; norm_num [bIn, obA]
  · rw [hy]; norm_num [bIn, obA]
  · rw [hy]; norm_num [bIn, obA]

/-- Witness for C2: a bird overlapping the obstacle from the right, with
closest point (10, 5) at distance 4 below the radius 5. -/
theorem c2_collision_response_witness :
    obA.alive = true ∧ (0 : ℝ) < bOut.r ∧ 0 < distSq bOut obA ∧
      collisionDist bOut obA = closestDist bOut obA ∧
      (closestDist bOut obA < bOut.r →
        (collideOne bOut obA).1.x =
          bOut.x + collisionNx bOut obA * (bOut.r - closestDist bOut obA) ∧
        (collideOne bOut obA).1.y =
          bOut.y + collisionNy bOut obA * (bOut.r - closestDist bOut obA) ∧
        (collideOne bOut obA).1.vx =
          (bOut.vx - 1.6 * collisionDot bOut obA * collisionNx bOut obA) * 0.82 ∧
        (collideOne bOut obA).1.vy =
          (bOut.vy - 1.6 * collisionDot bOut obA * collisionNy bOut obA) * 0.82) := by
  have hnx : nearestX bOut obA = 10 := by
    rw [nearestX]; norm_num [bOut, obA, min_def, max_def]
  have hny : nearestY bOut obA = 5 := by
    rw [nearestY]; norm_num [bOut, obA, min_def, max_def]
  have hds : distSq bOut obA = 16 := by
    rw [distSq, hnx, hny]; norm_num [bOut]
  have hpos : (0 : ℝ) < distSq bOut obA := by rw [hds]; norm_num
  refine ⟨rfl, by norm_num [bOut], hpos, ?_, ?_⟩
  · exact (c2_collision_response bOut obA rfl (by norm_num [bOut]) hpos).2.1
  · exact (c2_collision_response bOut obA rfl (by norm_num [bOut]) hpos).2.2.2.2

/-- C3: every bird-obstacle collision reduces the obstacle's health by
max(1, 0.02 * |v.n|) — hence by at least 1 — and the obstacle comes out not
alive exactly when its new health is 0 or below; dead obstacles are skipped
by the collision handler; and `cleanupObstacles` keeps exactly the alive
obstacles of positive health, so a destroyed obstacle never takes part in a
later collision. -/
theorem c3_damage_destruction :
    (∀ (b : Bird) (ob : Obstacle), ob.alive = true → distSq b ob < b.r * b.r →
      (collideOne b ob).2.health = ob.health - max 1 (|collisionDot b ob| * 0.02) ∧
      (collideOne b ob).2.health ≤ ob.health - 1 ∧
      ((collideOne b ob).2.alive = false ↔ (collideOne b ob).2.health ≤ 0)) ∧
    (∀ (b : Bird) (ob : Obstacle), ob.alive = false → collideOne b ob = (b, ob)) ∧
    (∀ (obs : List Obstacle) (ob : Obstacle),
      ob ∈ cleanupObstacles obs ↔ ob ∈ obs ∧ ob.alive = true ∧ 0 < ob.health) := by
  refine ⟨?_, ?_, ?_⟩
  · intro b ob halive hcoll
    have hal : ¬ (ob.alive = false) := by simp [halive]
    have hh : (collideOne b ob).2.health =
        ob.health - max 1 (|collisionDot b ob| * 0.02) := by
      rw [collideOne, if_neg hal, if_pos hcoll]
    refine ⟨hh, ?_, ?_⟩
    · rw [hh]
      have := le_max_left (1 : ℝ) (|collisionDot b ob| * 0.02)
      linarith
    · rw [collideOne, if_neg hal, if_pos hcoll]
      show (if ob.health - max 1 (|collisionDot b ob| * 0.02) ≤ 0 then false
            else ob.alive) = false ↔ _
      split_ifs with h0
      · exact iff_of_true rfl h0
      · rw [halive]
        exact iff_of_false (by simp) h0
  · intro b ob hdead
    rw [collideOne, if_pos hdead]
  · intro obs ob
    simp [cleanupObstacles, List.mem_filter]

/-- Witness for C3: the overlapping bird `bOut` hits `obA` (impact dot
product -10, damage max(1, 0.2) = 1), and an alive obstacle of positive
health survives `cleanupObstacles`. -/
theorem c3_damage_destruction_witness :
    obA.alive = true ∧ distSq bOut obA < bOut.r * bOut.r ∧
      (collideOne bOut obA).2.health =
        obA.health - max 1 (|collisionDot bOut obA| * 0.02) ∧
      obB ∈ cleanupObstacles [obB] := by
  have hnx : nearestX bOut obA = 10 := by
    rw [nearestX]; norm_num [bOut, obA, min_def, max_def]
  have hny : nearestY bOut obA = 5 := by
    rw [nearestY]; norm_num [bOut, obA, min_def, max_def]
  have hcoll : distSq bOut obA < bOut.r * bOut.r := by
    rw [distSq, hnx, hny]; norm_num [bOut]
  exact ⟨rfl, hcoll,
    (c3_damage_destruction.1 bOut obA rfl hcoll).1,
    (c3_damage_destruction.2.2 [obB] obB).mpr
      ⟨by simp, rfl, by norm_num [obB]⟩⟩

/-- A scan over birds none of which hits the pig finds nothing. -/
theorem pigHitScan_none (p : Pig) : ∀ bs : List Bird,
    (∀ b ∈ bs, ¬ pigHit p b) → pigHitScan p bs = none := by
  intro bs
  induction bs with
  | nil => intro _; rfl
  | cons b rest ih =>
    intro h
    simp only [pigHitScan, if_neg (h b (List.mem_cons_self b rest)),
      ih (fun b' hb' => h b' (List.mem_cons_of_mem b hb'))]

/-- The scan stops at the first hitting bird and damps its velocity. -/
theorem pigHitScan_first (p : Pig) (b : Bird) (bs2 : List Bird) : ∀ bs1 : List Bird,
    (∀ b' ∈ bs1, ¬ pigHit p b') → pigHit p b →
    pigHitScan p (bs1 ++ b :: bs2) =
      some (bs1 ++ { b with vx := b.vx * 0.7, vy := b.vy * 0.7 } :: bs2) := by
  intro bs1
  induction bs1 with
  | nil =>
    intro _ hb
    simp only [List.nil_append, pigHitScan, if_pos hb]
  | cons c rest ih =>
    intro h hb
    have hih := ih (fun b' hb' => h b' (List.mem_cons_of_mem c hb')) hb
    simp only [List.cons_append, pigHitScan,
      if_neg (h c (List.mem_cons_self c rest)), List.append_eq, hih]

/-- Counting dead pigs distributes over cons. -/
theorem countDead_cons (p : Pig) (ps : List Pig) :
    countDead (p :: ps) = countDead [p] + countDead ps := by
  cases hp : p.alive <;>
    (simp [countDead, List.filter_cons, hp]; try omega)

/-- One pig's pass: the score it adds matches its alive flag flipping, and a
dead pig never comes back to life. -/
theorem checkHitsPig_score (p : Pig) (bs : List Bird) :
    (checkHitsPig p bs).2.2 + 100 * countDead [p] =
      100 * countDead [(checkHitsPig p bs).1] ∧
    countDead [p] ≤ countDead [(checkHitsPig p bs).1] := by
  unfold checkHitsPig
  cases hp : p.alive with
  | false => simp [countDead, hp]
  | true =>
    cases hscan : pigHitScan p bs with
    | none => simp [countDead, hp, hscan]
    | some bs' => simp [countDead, hp, hscan]

/-- C6: a hit is exactly the circle-vs-circle test (centre distance below
pig.r + bird.r against a launched bird); a dead pig is skipped, a pig with
no hitting bird is unchanged, and the first hitting bird kills the pig,
scores exactly 100 and has both its velocity components scaled by 0.7; over
a whole `checkHits` pass the score grows by exactly 100 per newly dead pig
and dead pigs stay dead, so each pig contributes at most 100 points. -/
theorem c6_pig_hits :
    (∀ (p : Pig) (b : Bird), pigHit p b ↔ b.launched = true ∧
      Real.sqrt ((p.x - b.x) * (p.x - b.x) + (p.y - b.y) * (p.y - b.y)) < p.r + b.r) ∧
    (∀ (p : Pig) (bs : List Bird), p.alive = false → checkHitsPig p bs = (p, bs, 0)) ∧
    (∀ (p : Pig) (bs : List Bird), p.alive = true → (∀ b ∈ bs, ¬ pigHit p b) →
      checkHitsPig p bs = (p, bs, 0)) ∧
    (∀ (p : Pig) (bs1 : List Bird) (b : Bird) (bs2 : List Bird), p.alive = true →
      (∀ b' ∈ bs1, ¬ pigHit p b') → pigHit p b →
      checkHitsPig p (bs1 ++ b :: bs2) =
        ({ p with alive := false },
         bs1 ++ { b with vx := b.vx * 0.7, vy := b.vy * 0.7 } :: bs2, 100)) ∧
    (∀ (ps : List Pig) (bs : List Bird) (s : ℕ),
      (checkHits ps bs s).2.2 + 100 * countDead ps =
        s + 100 * countDead (checkHits ps bs s).1 ∧
      countDead ps ≤ countDead (checkHits ps bs s).1 ∧
      (checkHits ps bs s).1.length = ps.length) := by
  refine ⟨fun p b => Iff.rfl, ?_, ?_, ?_, ?_⟩
  · intro p bs hp
    simp [checkHitsPig, hp]
  · intro p bs hp hnone
    have hps := pigHitScan_none p bs hnone
    simp [checkHitsPig, hp, hps]
  · intro p bs1 b bs2 hp hmiss hb
    have hps := pigHitScan_first p b bs2 bs1 hmiss hb
    simp [checkHitsPig, hp, hps]
  · intro ps
    induction ps with
    | nil => intro bs s; simp [checkHits, countDead]
    | cons p rest ih =>
      intro bs s
      have hpig := checkHitsPig_score p bs
      have hrec := ih (checkHitsPig p bs).2.1 (s + (checkHitsPig p bs).2.2)
      simp only [checkHits]
      refine ⟨?_, ?_, ?_⟩
      · rw [countDead_cons p rest, countDead_cons (checkHitsPig p bs).1
          (checkHits rest (checkHitsPig p bs).2.1 (s + (checkHitsPig p bs).2.2)).1]
        omega
      · rw [countDead_cons p rest, countDead_cons (checkHitsPig p bs).1
          (checkHits rest (checkHitsPig p bs).2.1 (s + (checkHitsPig p bs).2.2)).1]
        omega
      · simp [hrec.2.2]

/-- Witness for C6: the pig at the origin is hit by the launched bird at
(4, 3) — centre distance 5 below the radius sum 6 — and dies for exactly
100 points while the bird's velocity is damped by 0.7. -/
theorem c6_pig_hits_witness :
    pigW.alive = true ∧ pigHit pigW bHit ∧
      checkHitsPig pigW [bHit] =
        ({ pigW with alive := false },
         [{ bHit with vx := bHit.vx * 0.7, vy := bHit.vy * 0.7 }], 100) := by
  have h25 : Real.sqrt ((pigW.x - bHit.x) * (pigW.x - bHit.x) +
      (pigW.y - bHit.y) * (pigW.y - bHit.y)) = 5 := by
    have : (pigW.x - bHit.x) * (pigW.x - bHit.x) +
        (pigW.y - bHit.y) * (pigW.y - bHit.y) = (5 : ℝ) ^ 2 := by
      norm_num [pigW, bHit]
    rw [this, Real.sqrt_sq (by norm_num : (0 : ℝ) ≤ 5)]
  have hhit : pigHit pigW bHit := by
    refine ⟨rfl, ?_⟩
    rw [h25]
    norm_num [pigW, bHit]
  refine ⟨rfl, hhit, ?_⟩
  simpa using c6_pig_hits.2.2.2.1 pigW [] bHit [] rfl (by simp) hhit

end AngryLeli
